import Mathlib

/-!
# Timescale Terraform provider: service and VPC resources

A shallow embedding of `internal/provider/service_resource.go` and
`internal/provider/vpc_resource.go`.

Conventions of the embedding:

* a Go `time.Duration` is an `Int` number of nanoseconds;
* a remote call made through the API client is a deterministic oracle, and every
  handler returns, next to its results, the log of the client calls it made;
* `req.Plan.Get` / `req.State.Get` copy the decoded record and hand back the
  diagnostics of the decoding, both carried by the request;
* `resp.State.Set` records the value it is given and reports no diagnostics;
* the operation context is never cancelled.
-/

set_option autoImplicit false

namespace TimescaleProvider

/-! ## Durations and errors -/

/-- Go `time.Second`, in nanoseconds. -/
def time.Second : Int := 1000000000

/-- Go `time.Minute`. -/
def time.Minute : Int := 60 * time.Second

/-- Go `error` values met in the provider. -/
inductive GoError where
  /-- an error value handed back by the API client -/
  | api (msg : String)
  /-- the wait gave up because the configured window was exceeded -/
  | timeout (window : Int)
  /-- an error built with `fmt.Errorf` -/
  | errorf (msg : String)
deriving DecidableEq, Repr

/-- Go `err.Error()`. -/
def GoError.Error : GoError → String
  | .api msg => msg
  | .timeout _ => "timeout while waiting for state"
  | .errorf msg => msg

/-! ## Diagnostics (`terraform-plugin-framework/diag`) -/

/-- Severity of a diagnostic. -/
inductive diag.Severity where
  | Error
  | Warning
deriving DecidableEq, Repr

/-- One diagnostic: severity, summary and detail. -/
structure diag.Diagnostic where
  Severity : diag.Severity
  Summary : String
  Detail : String
deriving DecidableEq, Repr

/-- Go `diag.Diagnostics`, a slice of diagnostics. -/
abbrev diag.Diagnostics := List diag.Diagnostic

/-- Method `diags.HasError()`: some diagnostic has error severity. -/
def diag.Diagnostics.HasError (diags : diag.Diagnostics) : Bool :=
  diags.any (fun d => decide (d.Severity = diag.Severity.Error))

/-- Method `diags.Append(in...)`: appends each diagnostic not already contained. -/
def diag.Diagnostics.Append (diags : diag.Diagnostics) (more : diag.Diagnostics) :
    diag.Diagnostics :=
  more.foldl (fun acc d => if d ∈ acc then acc else acc ++ [d]) diags

/-- Method `diags.AddError(summary, detail)`. -/
def diag.Diagnostics.AddError (diags : diag.Diagnostics) (summary detail : String) :
    diag.Diagnostics :=
  diag.Diagnostics.Append diags [⟨diag.Severity.Error, summary, detail⟩]

/-- Method `diags.Errors()`: the diagnostics of error severity. -/
def diag.Diagnostics.Errors (diags : diag.Diagnostics) : diag.Diagnostics :=
  diags.filter (fun d => decide (d.Severity = diag.Severity.Error))

/-- Stand-in for the `%v` rendering of a list of diagnostics. -/
def diag.Diagnostics.render (diags : diag.Diagnostics) : String :=
  "[" ++ String.intercalate " " (diags.map (fun d => d.Summary ++ ": " ++ d.Detail)) ++ "]"

/-! ## Wire-format records of the API client -/

/-- Modelled from the spec: `tsClient.ResourceSpec`, the sizing of one resource of a
service, is declared in `internal/client`, which is not among the sources; a
wire-format record given with the fields `serviceToResource` reads. -/
structure tsClient.ResourceSpec where
  MilliCPU : Int
  StorageGB : Int
  MemoryGB : Int
deriving DecidableEq, Repr

/-- Modelled from the spec: `tsClient.Resource`, one entry of `Service.Resources`,
is declared in `internal/client`, which is not among the sources. -/
structure tsClient.Resource where
  Spec : tsClient.ResourceSpec
deriving DecidableEq, Repr

/-- Modelled from the spec: `tsClient.ServiceSpec`, the connection data of a
service, is declared in `internal/client`, which is not among the sources. -/
structure tsClient.ServiceSpec where
  Hostname : String
  Username : String
  Port : Int
deriving DecidableEq, Repr

/-- Modelled from the spec: `tsClient.AutoscaleSettings` is declared in
`internal/client`, which is not among the sources. -/
structure tsClient.AutoscaleSettings where
  Enabled : Bool
deriving DecidableEq, Repr

/-- Modelled from the spec: `tsClient.Service`, the wire-format record of a remote
service with its readable status field, is declared in `internal/client`, which is
not among the sources; given with the fields `service_resource.go` reads. -/
structure tsClient.Service where
  ID : String
  Name : String
  Status : String
  AutoscaleSettings : tsClient.AutoscaleSettings
  Resources : List tsClient.Resource
  ServiceSpec : tsClient.ServiceSpec
deriving DecidableEq, Repr

/-- Modelled from the spec: `tsClient.PeerVPC` is declared in `internal/client`,
which is not among the sources; given with the fields `vpcToResource` reads. -/
structure tsClient.PeerVPC where
  ID : String
  CIDR : String
  AccountID : String
  RegionCode : String
deriving DecidableEq, Repr

/-- Modelled from the spec: `tsClient.PeeringConnection` is declared in
`internal/client`, which is not among the sources; given with the fields
`vpcToResource` reads. -/
structure tsClient.PeeringConnection where
  ID : String
  VPCID : String
  Status : String
  ErrorMessage : String
  PeerVPC : tsClient.PeerVPC
deriving DecidableEq, Repr

/-- Modelled from the spec: `tsClient.VPC`, the wire-format record of a remote VPC,
is declared in `internal/client`, which is not among the sources; given with the
fields `vpc_resource.go` reads. -/
structure tsClient.VPC where
  ID : String
  ProvisionedID : String
  ProjectID : String
  CIDR : String
  Name : String
  RegionCode : String
  Status : String
  ErrorMessage : String
  Created : String
  Updated : String
  PeeringConnections : List tsClient.PeeringConnection
deriving DecidableEq, Repr

/-! ## Attribute values (`terraform-plugin-framework/types`) -/

/-- Go `types.String`: null, unknown, or a known string. -/
inductive basetypes.StringValue where
  | null
  | unknown
  | known (value : String)
deriving DecidableEq, Repr

/-- Go `types.Int64`: null, unknown, or a known integer. -/
inductive basetypes.Int64Value where
  | null
  | unknown
  | known (value : Int)
deriving DecidableEq, Repr

/-- Go `types.Bool`: null, unknown, or a known boolean. -/
inductive basetypes.BoolValue where
  | null
  | unknown
  | known (value : Bool)
deriving DecidableEq, Repr

/-- Go `types.Object` holding a record of type `α`. -/
inductive basetypes.ObjectValue (α : Type) where
  | null
  | unknown
  | known (value : α)
deriving DecidableEq, Repr

/-- Go `types.List` holding elements of type `α`. -/
inductive basetypes.ListValue (α : Type) where
  | null
  | unknown
  | known (elems : List α)
deriving DecidableEq, Repr

/-- Method `v.IsNull()`. -/
def basetypes.StringValue.IsNull : basetypes.StringValue → Bool
  | .null => true
  | _ => false

/-- Method `v.IsUnknown()`. -/
def basetypes.StringValue.IsUnknown : basetypes.StringValue → Bool
  | .unknown => true
  | _ => false

/-- Method `v.ValueString()`: the known string, the empty string otherwise. -/
def basetypes.StringValue.ValueString : basetypes.StringValue → String
  | .known value => value
  | _ => ""

/-- Method `v.Equal(o)`: same state and, when known, same string. -/
def basetypes.StringValue.Equal (v o : basetypes.StringValue) : Bool :=
  decide (v = o)

/-- Method `v.IsUnknown()`. -/
def basetypes.Int64Value.IsUnknown : basetypes.Int64Value → Bool
  | .unknown => true
  | _ => false

/-- Method `v.ValueInt64()`: the known integer, zero otherwise. -/
def basetypes.Int64Value.ValueInt64 : basetypes.Int64Value → Int
  | .known value => value
  | _ => 0

/-- Calls of the API client that the handlers can make. -/
inductive ClientCall where
  | GetService (id : String)
  | GetVPCByName (name : String)
  | CreateVPC (name cidr regionCode : String)
  | RenameVPC (id : Int) (name : String)
deriving DecidableEq, Repr

/-- What `Get(ctx, &target)` of a plan or a state does: `value` is copied into
the target, `diags` is handed back. -/
structure tfsdk.Data (α : Type) where
  value : α
  diags : diag.Diagnostics

/-- A request that carries the prior state (`resource.ReadRequest`). -/
structure StateRequest (α : Type) where
  State : tfsdk.Data α

/-- A request that carries the plan (`resource.CreateRequest`). -/
structure PlanRequest (α : Type) where
  Plan : tfsdk.Data α

/-- A request that carries plan and prior state (`resource.UpdateRequest`). -/
structure UpdateRequest (α : Type) where
  Plan : tfsdk.Data α
  State : tfsdk.Data α

/-- What a handler leaves behind: the diagnostics of the response, the value given
to `resp.State.Set` (`none` when it was not called), and the client calls made. -/
structure Response (α : Type) where
  Diagnostics : diag.Diagnostics
  State : Option α
  calls : List ClientCall

/-! ## `strconv.ParseInt(s, 10, 64)` -/

/-- The two causes of a `*strconv.NumError`. -/
inductive strconv.NumError where
  | ErrSyntax
  | ErrRange
deriving DecidableEq, Repr

/-- The digit loop of `strconv.ParseUint(s, 10, 64)`, `n` being the value read so
far: a character that is no decimal digit is a syntax error with value 0; leaving
the range of `uint64` is a range error with value `2^64 - 1`. -/
def strconv.parseUintLoop : List Char → Nat → Nat × Option strconv.NumError
  | [], n => (n, none)
  | c :: cs, n =>
    if 48 ≤ c.toNat ∧ c.toNat ≤ 57 then
      if n ≥ (2 ^ 64 - 1) / 10 + 1 then (2 ^ 64 - 1, some strconv.NumError.ErrRange)
      else if n * 10 + (c.toNat - 48) > 2 ^ 64 - 1 then
        (2 ^ 64 - 1, some strconv.NumError.ErrRange)
      else strconv.parseUintLoop cs (n * 10 + (c.toNat - 48))
    else (0, some strconv.NumError.ErrSyntax)

/-- Go `strconv.ParseUint(s, 10, 64)` on the characters of `s`. -/
def strconv.ParseUint (s : List Char) : Nat × Option strconv.NumError :=
  match s with
  | [] => (0, some strconv.NumError.ErrSyntax)
  | _ => strconv.parseUintLoop s 0

/-- Go `strconv.ParseInt(s, 10, 64)`: the value and the error (`none` for `nil`). A
syntax error comes with 0, a range error with the nearest bound of `int64`. -/
def strconv.ParseInt (s : String) : Int × Option strconv.NumError :=
  match s.toList with
  | [] => (0, some strconv.NumError.ErrSyntax)
  | c :: cs =>
    let neg : Bool := c = '-'
    let digits : List Char := if c = '+' ∨ c = '-' then cs else c :: cs
    match strconv.ParseUint digits with
    | (_, some strconv.NumError.ErrSyntax) => (0, some strconv.NumError.ErrSyntax)
    | (un, _) =>
      if !neg ∧ un ≥ 2 ^ 63 then (2 ^ 63 - 1, some strconv.NumError.ErrRange)
      else if neg ∧ un > 2 ^ 63 then (-(2 ^ 63), some strconv.NumError.ErrRange)
      else if neg then (-(un : Int), none)
      else ((un : Int), none)

/-! ## The readiness poller -/

/-- What one call of `Refresh` hands back: `(result, state, err)`. -/
structure RefreshResult where
  result : Option tsClient.Service
  state : String
  err : Option GoError
deriving DecidableEq, Repr

/-- The `helper.StateChangeConf` literal built by `waitForServiceReadiness`.
`Refresh k` is what the `k`-th invocation (from 0) of the closure hands back.
The fixed interval between polls is positive. -/
structure StateChangeConf where
  Pending : List String
  Target : List String
  Delay : Int
  Timeout : Int
  PollInterval : Int
  PollInterval_pos : 0 < PollInterval
  ContinuousTargetOccurence : Nat
  Refresh : Nat → RefreshResult

/-- Outcome of a wait: the object, the error, and the elapsed time at which each
fetch was started, in order. -/
structure WaitResult where
  result : Option tsClient.Service
  err : Option GoError
  refreshAt : List Int
deriving DecidableEq, Repr

/-- Number of fetch calls of a wait. -/
def WaitResult.calls (w : WaitResult) : Nat := w.refreshAt.length

/-- Modelled from the spec: the poll rounds of `helper.StateChangeConf`, whose code
is not among the sources, from elapsed time `t` on, `log` holding the start times
of the fetches made so far. Spec 4.1: the wait "fails with a timeout error once
total elapsed time exceeds the configured timeout"; otherwise it "invokes fetch and
inspects the returned status": a fetch error is propagated immediately; the target
status "returns the fetched object immediately"; a pending status "continues
polling" one interval later; a status that is neither is treated "as continuing to
poll indefinitely until timeout". -/
def StateChangeConf.poll (conf : StateChangeConf) (t : Int) (log : List Int) :
    WaitResult :=
  if _h : conf.Timeout < t then
    ⟨none, some (GoError.timeout conf.Timeout), log⟩
  else
    match conf.Refresh log.length with
    | ⟨_, _, some e⟩ => ⟨none, some e, log ++ [t]⟩
    | ⟨res, state, none⟩ =>
      if state ∈ conf.Target then ⟨res, none, log ++ [t]⟩
      else if state ∈ conf.Pending then
        StateChangeConf.poll conf (t + conf.PollInterval) (log ++ [t])
      else
        StateChangeConf.poll conf (t + conf.PollInterval) (log ++ [t])
termination_by (conf.Timeout + 1 - t).toNat
decreasing_by
  all_goals
    have hp := conf.PollInterval_pos
    omega

/-- Modelled from the spec: `helper.StateChangeConf.WaitForStateContext`, whose code
is not among the sources. Spec 4.1: it "waits an initial delay (10 seconds) before
the first fetch", then polls "on a fixed cadence (5-second interval)". -/
def StateChangeConf.WaitForStateContext (conf : StateChangeConf) : WaitResult :=
  StateChangeConf.poll conf conf.Delay []

/-! ## `service_resource.go`: waiting for a created service -/

/-- Modelled from the spec: `timeouts.Value` of
`terraform-plugin-framework-timeouts`, whose code is not among the sources: "a
single user-facing timeout setting for the create operation, expressed as a
duration string". The setting is absent, a string that parses as the duration `d`,
or a string that does not parse. -/
inductive timeouts.Value where
  | absent
  | valid (d : Int)
  | invalid (s : String)
deriving DecidableEq, Repr

/-- Modelled from the spec: `timeouts.Value.Create`, whose code is not among the
sources: "absent or invalid falls back to the 45-minute default", so the first
component is the parsed duration or the default. The second component is the
diagnostics that `waitForServiceReadiness` inspects with `diags.HasError()` and
reports as "unable to get timeout from config"; the spec does not describe them, and
a setting that cannot be parsed is the one case taken to report an error there. -/
def timeouts.Value.Create (t : timeouts.Value) (defaultTimeout : Int) :
    Int × diag.Diagnostics :=
  match t with
  | .absent => (defaultTimeout, [])
  | .valid d => (d, [])
  | .invalid s =>
    (defaultTimeout,
      [⟨diag.Severity.Error, "Timeout Cannot Be Parsed", "timeout for create cannot be parsed, " ++ s⟩])

/-- Modelled from the spec: `tsClient.Client`, the "remote API collaborator (black
box)" of spec 6, is declared in `internal/client`, which is not among the sources:
"operations to create, fetch-by-id, fetch-by-name, delete, and rename a tracked
object; each returns either the object's current representation or an error".
`GetService id k` is the answer to the `k`-th call (from 0) of `GetService` for `id`
within one wait; `RenameVPC` answers `none` for Go's `nil` error. -/
structure tsClient.Client where
  GetService : String → Nat → Except GoError tsClient.Service
  GetVPCByName : String → Except GoError tsClient.VPC
  CreateVPC : String → String → String → Except GoError tsClient.VPC
  RenameVPC : Int → String → Option GoError

/-- The `Refresh` closure of `waitForServiceReadiness`: one `GetService` call, the
status of the service read off the answer. -/
def ServiceResource.refresh (client : tsClient.Client) (ID : String) (k : Nat) : RefreshResult :=
  match client.GetService ID k with
  | .error err => ⟨none, "", some err⟩
  | .ok s => ⟨some s, s.Status, none⟩

/-- The `StateChangeConf` literal of `waitForServiceReadiness`. -/
def ServiceResource.stateChangeConf (client : tsClient.Client) (ID : String) (timeout : Int) :
    StateChangeConf where
  Pending := ["QUEUED", "CONFIGURING", "UNSTABLE"]
  Target := ["READY"]
  Delay := 10 * time.Second
  Timeout := timeout
  PollInterval := 5 * time.Second
  PollInterval_pos := by decide
  ContinuousTargetOccurence := 1
  Refresh := ServiceResource.refresh client ID

/-- The part of `waitForServiceReadiness` after the timeout is known: build the
`StateChangeConf`, wait, and assert the type of the result. -/
def ServiceResource.waitForState (client : tsClient.Client) (ID : String) (timeout : Int) :
    WaitResult :=
  let conf := ServiceResource.stateChangeConf client ID timeout
  let w := conf.WaitForStateContext
  match w.err with
  | some err => ⟨none, some err, w.refreshAt⟩
  | none =>
    match w.result with
    | some s => ⟨some s, none, w.refreshAt⟩
    | none =>
      ⟨none, some (GoError.errorf "unexpected type found, expected Service but got <nil>"),
        w.refreshAt⟩

/-- The method `ServiceResource.waitForServiceReadiness`: the service, the error and
the log of the fetch calls made. -/
def ServiceResource.waitForServiceReadiness (client : tsClient.Client) (ID : String)
    (timeouts : timeouts.Value) : WaitResult :=
  let defaultTimeout := 45 * time.Minute
  let created := timeouts.Create defaultTimeout
  if diag.Diagnostics.HasError created.2 then
    ⟨none, some (GoError.errorf ("unable to get timeout from config " ++
      diag.Diagnostics.render (diag.Diagnostics.Errors created.2))), []⟩
  else
    ServiceResource.waitForState client ID created.1

/-! ## `service_resource.go`: the resource model and the update handler -/

/-- Constant `ErrUpdateService`. -/
def ErrUpdateService : String := "Updating service name is currently unsupported"

/-- The struct `serviceResourceModel`. -/
structure serviceResourceModel where
  ID : basetypes.StringValue
  Name : basetypes.StringValue
  EnableStorageAutoscaling : basetypes.BoolValue
  Timeouts : timeouts.Value
  MilliCPU : basetypes.Int64Value
  StorageGB : basetypes.Int64Value
  MemoryGB : basetypes.Int64Value
  Password : basetypes.StringValue
  Hostname : basetypes.StringValue
  Port : basetypes.Int64Value
  Username : basetypes.StringValue
deriving DecidableEq, Repr

/-- The function `serviceToResource`; `none` stands for the run-time panic of
`s.Resources[0]` on an empty slice. -/
def serviceToResource (s : tsClient.Service) (state : serviceResourceModel) :
    Option serviceResourceModel :=
  match s.Resources with
  | [] => none
  | r0 :: _ =>
    some {
      ID := basetypes.StringValue.known s.ID
      Password := state.Password
      Name := basetypes.StringValue.known s.Name
      EnableStorageAutoscaling := basetypes.BoolValue.known s.AutoscaleSettings.Enabled
      MilliCPU := basetypes.Int64Value.known r0.Spec.MilliCPU
      StorageGB := basetypes.Int64Value.known r0.Spec.StorageGB
      MemoryGB := basetypes.Int64Value.known r0.Spec.MemoryGB
      Hostname := basetypes.StringValue.known s.ServiceSpec.Hostname
      Username := basetypes.StringValue.known s.ServiceSpec.Username
      Port := basetypes.Int64Value.known s.ServiceSpec.Port
      Timeouts := state.Timeouts }

/-- The handler `ServiceResource.Update`. -/
def ServiceResource.Update (req : UpdateRequest serviceResourceModel) :
    Response serviceResourceModel :=
  let plan := req.Plan.value
  let state := req.State.value
  let diags := diag.Diagnostics.Append (diag.Diagnostics.Append [] req.Plan.diags) req.State.diags
  if diag.Diagnostics.HasError diags then
    ⟨diags, none, []⟩
  else if !plan.Name.Equal state.ID then
    ⟨diag.Diagnostics.AddError diags "Unsupported operation" ErrUpdateService, none, []⟩
  else
    ⟨diags, none, []⟩

/-! ## `vpc_resource.go` -/

/-- Variable `ErrVPCRead`. -/
def ErrVPCRead : String := "Error reading VPC"

/-- Variable `ErrVPCCreate`. -/
def ErrVPCCreate : String := "Error creating VPC"

/-- Variable `ErrVPCUpdate`. -/
def ErrVPCUpdate : String := "Error updating VPC"

/-- The struct `peerVpcModel`. -/
structure peerVpcModel where
  ID : basetypes.StringValue
  CIDR : basetypes.StringValue
  AccountID : basetypes.StringValue
  RegionCode : basetypes.StringValue
deriving DecidableEq, Repr

/-- The struct `peeringConnectionResourceModel`. -/
structure peeringConnectionResourceModel where
  ID : basetypes.Int64Value
  VpcID : basetypes.StringValue
  Status : basetypes.StringValue
  ErrorMessage : basetypes.StringValue
  PeerVpcs : basetypes.ObjectValue peerVpcModel
deriving DecidableEq, Repr

/-- The struct `vpcResourceModel`; an element of `PeeringConnections` is the object
made from a `peeringConnectionResourceModel`. -/
structure vpcResourceModel where
  ID : basetypes.Int64Value
  ProvisionedID : basetypes.StringValue
  ProjectID : basetypes.StringValue
  CIDR : basetypes.StringValue
  Name : basetypes.StringValue
  RegionCode : basetypes.StringValue
  Status : basetypes.StringValue
  ErrorMessage : basetypes.StringValue
  Created : basetypes.StringValue
  Updated : basetypes.StringValue
  PeeringConnections : basetypes.ListValue (basetypes.ObjectValue peeringConnectionResourceModel)
deriving DecidableEq, Repr

/-- Body of the loop of `vpcToResource` for one peering connection: the local
diagnostics after the round and the object appended to `pcmObjs`.
`types.ObjectValueFrom` is given a value of the declared attribute types and reports
no diagnostics. -/
def vpcToResource.peering (diags : diag.Diagnostics) (pc : tsClient.PeeringConnection) :
    diag.Diagnostics × basetypes.ObjectValue peeringConnectionResourceModel :=
  let parsed := strconv.ParseInt pc.ID
  let diags :=
    if parsed.2.isSome then
      diag.Diagnostics.AddError diags "Parse Error" "could not parse peering connection ID"
    else diags
  let peerVpcs : basetypes.ObjectValue peerVpcModel := basetypes.ObjectValue.known {
    ID := basetypes.StringValue.known pc.PeerVPC.ID
    AccountID := basetypes.StringValue.known pc.PeerVPC.AccountID
    CIDR := basetypes.StringValue.known pc.PeerVPC.CIDR
    RegionCode := basetypes.StringValue.known pc.PeerVPC.RegionCode }
  let pcm : peeringConnectionResourceModel := {
    ErrorMessage := basetypes.StringValue.known pc.ErrorMessage
    ID := basetypes.Int64Value.known parsed.1
    VpcID := basetypes.StringValue.known pc.VPCID
    Status := basetypes.StringValue.known pc.Status
    PeerVpcs := peerVpcs }
  (diags, basetypes.ObjectValue.known pcm)

/-- The loop of `vpcToResource` over `s.PeeringConnections`. -/
def vpcToResource.peerings (diags : diag.Diagnostics)
    (objs : List (basetypes.ObjectValue peeringConnectionResourceModel)) :
    List tsClient.PeeringConnection →
      diag.Diagnostics × List (basetypes.ObjectValue peeringConnectionResourceModel)
  | [] => (diags, objs)
  | pc :: rest =>
    let r := vpcToResource.peering diags pc
    vpcToResource.peerings r.1 (objs ++ [r.2]) rest

/-- The function `vpcToResource`. Its parameter `diag` is a `diag.Diagnostics`
slice received by value: the function returns the model only, and what it adds to
`diag` stays in its own copy. The second component is the final value of that local
copy, which no caller can see. `types.ListValue` is given elements of the declared
element type and reports no diagnostics. -/
def vpcToResource (diags : diag.Diagnostics) (s : tsClient.VPC) (state : vpcResourceModel) :
    vpcResourceModel × diag.Diagnostics :=
  let r := vpcToResource.peerings diags [] s.PeeringConnections
  ({ ID := state.ID
     ProjectID := state.ProjectID
     Created := state.Created
     RegionCode := state.RegionCode
     CIDR := state.CIDR
     Name := basetypes.StringValue.known s.Name
     ProvisionedID := basetypes.StringValue.known s.ProvisionedID
     Status := basetypes.StringValue.known s.Status
     ErrorMessage := basetypes.StringValue.known s.ErrorMessage
     Updated := basetypes.StringValue.known s.Updated
     PeeringConnections := basetypes.ListValue.known r.2 }, r.1)

/-- The part of `Read` and `Create` after a VPC was obtained from the API: parse its
ID, copy the read-only fields, map it with `vpcToResource` and set the state. -/
def vpcResource.store (diags : diag.Diagnostics) (vpc : tsClient.VPC)
    (state : vpcResourceModel) (calls : List ClientCall) : Response vpcResourceModel :=
  let parsed := strconv.ParseInt vpc.ID
  let diags :=
    if parsed.2.isSome then diag.Diagnostics.AddError diags "Parse Error" "could not parse vpcID"
    else diags
  let state := { state with
    ID := basetypes.Int64Value.known parsed.1
    Created := basetypes.StringValue.known vpc.Created
    ProjectID := basetypes.StringValue.known vpc.ProjectID
    CIDR := basetypes.StringValue.known vpc.CIDR
    RegionCode := basetypes.StringValue.known vpc.RegionCode }
  let model := (vpcToResource diags vpc state).1
  ⟨diags, some model, calls⟩

/-- The handler `vpcResource.Read`. -/
def vpcResource.Read (client : tsClient.Client) (req : StateRequest vpcResourceModel) :
    Response vpcResourceModel :=
  let state := req.State.value
  let diags := diag.Diagnostics.Append [] req.State.diags
  if diag.Diagnostics.HasError diags then
    ⟨diags, none, []⟩
  else if !state.Name.IsNull then
    match client.GetVPCByName state.Name.ValueString with
    | .error err =>
      ⟨diag.Diagnostics.AddError diags "Client Error"
          ("Unable to Read vpc, got error: " ++ state.Name.ValueString ++ ", " ++ err.Error),
        none, [ClientCall.GetVPCByName state.Name.ValueString]⟩
    | .ok vpc =>
      vpcResource.store diags vpc state [ClientCall.GetVPCByName state.Name.ValueString]
  else
    ⟨diag.Diagnostics.AddError diags ErrVPCRead "error must provide Name", none, []⟩

/-- The handler `vpcResource.Create`. The summary of the client error leaves out
the `%v` rendering of the plan. -/
def vpcResource.Create (client : tsClient.Client) (req : PlanRequest vpcResourceModel) :
    Response vpcResourceModel :=
  let plan := req.Plan.value
  let diags := diag.Diagnostics.Append [] req.Plan.diags
  if plan.RegionCode.IsNull then
    ⟨diag.Diagnostics.AddError diags ErrVPCCreate "Region code is required", none, []⟩
  else if plan.CIDR.IsNull then
    ⟨diag.Diagnostics.AddError diags ErrVPCCreate "CIDR is required", none, []⟩
  else
    let call := ClientCall.CreateVPC plan.Name.ValueString plan.CIDR.ValueString
      plan.RegionCode.ValueString
    match client.CreateVPC plan.Name.ValueString plan.CIDR.ValueString
        plan.RegionCode.ValueString with
    | .error err =>
      ⟨diag.Diagnostics.AddError diags "Unable to Create Vpc" err.Error, none, [call]⟩
    | .ok vpc => vpcResource.store diags vpc plan [call]

/-- The handler `vpcResource.Update`. -/
def vpcResource.Update (client : tsClient.Client) (req : UpdateRequest vpcResourceModel) :
    Response vpcResourceModel :=
  let plan := req.Plan.value
  let state := req.State.value
  let diags := diag.Diagnostics.Append (diag.Diagnostics.Append [] req.Plan.diags) req.State.diags
  if diag.Diagnostics.HasError diags then
    ⟨diags, none, []⟩
  else if plan.RegionCode ≠ state.RegionCode then
    ⟨diag.Diagnostics.AddError diags ErrVPCUpdate "Do not support region code change", none, []⟩
  else if plan.CIDR ≠ state.CIDR then
    ⟨diag.Diagnostics.AddError diags ErrVPCUpdate "Do not support cidr change", none, []⟩
  else if !plan.Name.Equal state.Name then
    let call := ClientCall.RenameVPC state.ID.ValueInt64 plan.Name.ValueString
    match client.RenameVPC state.ID.ValueInt64 plan.Name.ValueString with
    | some err => ⟨diag.Diagnostics.AddError diags ErrVPCUpdate err.Error, none, [call]⟩
    | none => ⟨diags, some { state with Name := plan.Name }, [call]⟩
  else
    ⟨diags, some { state with Name := plan.Name }, []⟩

/-! ## `service_resource.go`: allow-lists, defaults and the create request -/

/-- Constant `DefaultMilliCPU`. -/
def DefaultMilliCPU : Int := 500

/-- Constant `DefaultStorageGB`. -/
def DefaultStorageGB : Int := 10

/-- Constant `DefaultMemoryGB`. -/
def DefaultMemoryGB : Int := 2

/-- Variable `storageSizes`, the allow-list of `storage_gb`. -/
def storageSizes : List Int :=
  [10, 25, 50, 75, 100, 125, 150, 175, 200, 225, 250, 275, 300, 325, 350, 375, 400, 425, 450,
    475, 500, 600, 700, 800, 900, 1000, 1500, 2000, 2500, 3000, 4000, 5000, 6000, 7000, 800,
    9000, 10000, 12000, 14000, 16000]

/-- Variable `memorySizes`, the allow-list of `memory_gb`. -/
def memorySizes : List Int := [2, 4, 8, 16, 32, 64, 128]

/-- Variable `milliCPUSizes`, the allow-list of `milli_cpu`. -/
def milliCPUSizes : List Int := [500, 1000, 2000, 4000, 8000, 16000, 32000]

/-- Validator `int64validator.OneOf(values...)` on a known value: the value is one of
`values`. -/
def int64validator.OneOf (values : List Int) (v : Int) : Bool :=
  decide (v ∈ values)

/-- Go `strconv.FormatInt(i, 10)`: the decimal digits of `i`, after a minus sign
when `i` is negative. -/
def strconv.FormatInt (i : Int) : String :=
  if i < 0 then "-" ++ Nat.repr i.natAbs else Nat.repr i.natAbs

/-- The function `useDefaultIfEmpty`. -/
def useDefaultIfEmpty (value : basetypes.Int64Value) (defaultValue : Int) : String :=
  if !value.IsUnknown then strconv.FormatInt value.ValueInt64
  else strconv.FormatInt defaultValue

/-- Method `v.ValueBool()`: the known boolean, false otherwise. -/
def basetypes.BoolValue.ValueBool : basetypes.BoolValue → Bool
  | .known value => value
  | _ => false

/-- Modelled from the spec: `tsClient.CreateServiceRequest`, the argument of the
"create" operation of the remote API collaborator, is declared in `internal/client`,
which is not among the sources; given with the fields `ServiceResource.Create`
fills. -/
structure tsClient.CreateServiceRequest where
  Name : String
  EnableStorageAutoscaling : Bool
  MilliCPU : String
  StorageGB : String
  MemoryGB : String
deriving DecidableEq, Repr

/-- The `tsClient.CreateServiceRequest` literal that `ServiceResource.Create` hands
to `r.client.CreateService` for the plan it has read. -/
def ServiceResource.createServiceRequest (plan : serviceResourceModel) :
    tsClient.CreateServiceRequest where
  Name := plan.Name.ValueString
  EnableStorageAutoscaling := plan.EnableStorageAutoscaling.ValueBool
  MilliCPU := useDefaultIfEmpty plan.MilliCPU DefaultMilliCPU
  StorageGB := useDefaultIfEmpty plan.StorageGB DefaultStorageGB
  MemoryGB := useDefaultIfEmpty plan.MemoryGB DefaultMemoryGB

/-! ## Concrete inputs -/

/-- A remote service with one resource entry and the given status. -/
def sampleService (status : String) : tsClient.Service where
  ID := "svc-1"
  Name := "db"
  Status := status
  AutoscaleSettings := ⟨false⟩
  Resources := [⟨⟨500, 10, 2⟩⟩]
  ServiceSpec := ⟨"db.example.com", "tsdbadmin", 5432⟩

/-- A remote VPC without peering connections. -/
def sampleVPC : tsClient.VPC where
  ID := "7"
  ProvisionedID := "vpc-0a"
  ProjectID := "p1"
  CIDR := "10.0.0.0/16"
  Name := "net"
  RegionCode := "us-east-1"
  Status := "CREATED"
  ErrorMessage := ""
  Created := "2023-01-01"
  Updated := "2023-01-02"
  PeeringConnections := []

/-- A client whose `GetService` answers with the statuses of `statuses` in turn and
with `last` from then on; the VPC calls answer with `sampleVPC` and succeed. -/
def sampleClient (statuses : List String) (last : String) : tsClient.Client where
  GetService := fun _ k => Except.ok (sampleService (statuses.getD k last))
  GetVPCByName := fun _ => Except.ok sampleVPC
  CreateVPC := fun _ _ _ => Except.ok sampleVPC
  RenameVPC := fun _ _ => none

/-- A client whose `GetService` answers QUEUED once and fails from then on. -/
def failingClient : tsClient.Client where
  GetService := fun _ k =>
    if k = 0 then Except.ok (sampleService "QUEUED") else Except.error (GoError.api "503")
  GetVPCByName := fun _ => Except.error (GoError.api "503")
  CreateVPC := fun _ _ _ => Except.error (GoError.api "503")
  RenameVPC := fun _ _ => some (GoError.api "503")

/-- A service model with the given ID and name. -/
def sampleServiceModel (id name : String) : serviceResourceModel where
  ID := basetypes.StringValue.known id
  Name := basetypes.StringValue.known name
  EnableStorageAutoscaling := basetypes.BoolValue.known false
  Timeouts := timeouts.Value.absent
  MilliCPU := basetypes.Int64Value.known 500
  StorageGB := basetypes.Int64Value.known 10
  MemoryGB := basetypes.Int64Value.known 2
  Password := basetypes.StringValue.known "secret"
  Hostname := basetypes.StringValue.known "db.example.com"
  Port := basetypes.Int64Value.known 5432
  Username := basetypes.StringValue.known "tsdbadmin"

/-- A VPC model with the given name, region and CIDR. -/
def sampleVPCModel (name region cidr : String) : vpcResourceModel where
  ID := basetypes.Int64Value.known 7
  ProvisionedID := basetypes.StringValue.known "vpc-0a"
  ProjectID := basetypes.StringValue.known "p1"
  CIDR := basetypes.StringValue.known cidr
  Name := basetypes.StringValue.known name
  RegionCode := basetypes.StringValue.known region
  Status := basetypes.StringValue.known "CREATED"
  ErrorMessage := basetypes.StringValue.known ""
  Created := basetypes.StringValue.known "2023-01-01"
  Updated := basetypes.StringValue.known "2023-01-02"
  PeeringConnections := basetypes.ListValue.known []

/-- A remote VPC with one peering connection whose ID is no integer. -/
def peeredVPC : tsClient.VPC :=
  { sampleVPC with
    PeeringConnections := [⟨"pc-1", "7", "ACTIVE", "", ⟨"vpc-0b", "10.1.0.0/16", "123", "us-east-1"⟩⟩] }

/-- A client whose VPC calls answer with `peeredVPC`. -/
def peeredClient : tsClient.Client where
  GetService := fun _ _ => Except.ok (sampleService "READY")
  GetVPCByName := fun _ => Except.ok peeredVPC
  CreateVPC := fun _ _ _ => Except.ok peeredVPC
  RenameVPC := fun _ _ => none

/-- A remote service with two resource entries of different sizes. -/
def twoResourceService : tsClient.Service :=
  { sampleService "READY" with Resources := [⟨⟨1000, 25, 4⟩⟩, ⟨⟨500, 10, 2⟩⟩] }

/-! ## Lemmas on the poll rounds -/

/-- One round that is inside the window and sees neither an error nor the target
status hands over to the next round, one interval later. -/
theorem StateChangeConf.poll_continue (conf : StateChangeConf) (t : Int) (log : List Int)
    (hwin : t ≤ conf.Timeout) (herr : (conf.Refresh log.length).err = none)
    (hstate : (conf.Refresh log.length).state ∉ conf.Target) :
    conf.poll t log = conf.poll (t + conf.PollInterval) (log ++ [t]) := by
  rw [StateChangeConf.poll]
  have hlt : ¬ conf.Timeout < t := by omega
  rw [dif_neg hlt]
  rcases hr : conf.Refresh log.length with ⟨res, state, err⟩
  rw [hr] at herr hstate
  simp only at herr hstate
  subst herr
  simp only [if_neg hstate, ite_self]

/-- A run of `n` rounds without error or target status, all inside the window, takes
the poller `n` intervals further with `n` more fetches logged. -/
theorem StateChangeConf.poll_advance (conf : StateChangeConf) (n : Nat) :
    ∀ (t : Int) (log : List Int), t + n * conf.PollInterval ≤ conf.Timeout →
      (∀ i, i < n → (conf.Refresh (log.length + i)).err = none ∧
        (conf.Refresh (log.length + i)).state ∉ conf.Target) →
      ∃ log2 : List Int, log2.length = log.length + n ∧
        conf.poll t log = conf.poll (t + n * conf.PollInterval) log2 := by
  induction n with
  | zero =>
    intro t log _ _
    exact ⟨log, by simp, by simp⟩
  | succ n ih =>
    intro t log hwin hcont
    have hp := conf.PollInterval_pos
    have hn : (0 : Int) ≤ (n : Int) * conf.PollInterval :=
      mul_nonneg (Int.ofNat_nonneg n) (le_of_lt hp)
    have hexp : ((n + 1 : Nat) : Int) * conf.PollInterval
        = (n : Int) * conf.PollInterval + conf.PollInterval := by
      push_cast; ring
    rw [hexp] at hwin
    have h0 := hcont 0 (Nat.succ_pos n)
    rw [Nat.add_zero] at h0
    have hstep := StateChangeConf.poll_continue conf t log (by omega) h0.1 h0.2
    obtain ⟨log2, hlen, heq⟩ := ih (t + conf.PollInterval) (log ++ [t]) (by omega) (by
      intro i hi
      have := hcont (i + 1) (Nat.succ_lt_succ hi)
      have hidx : (log ++ [t]).length + i = log.length + (i + 1) := by
        simp only [List.length_append, List.length_singleton]; omega
      rw [hidx]; exact this)
    refine ⟨log2, ?_, ?_⟩
    · rw [hlen]; simp only [List.length_append, List.length_singleton]; omega
    · rw [hstep, heq, hexp]
      congr 1
      ring

/-- A round inside the window whose fetch reports the target status ends the wait
with the fetched object. -/
theorem StateChangeConf.poll_target (conf : StateChangeConf) (t : Int) (log : List Int)
    (hwin : t ≤ conf.Timeout) (herr : (conf.Refresh log.length).err = none)
    (hstate : (conf.Refresh log.length).state ∈ conf.Target) :
    conf.poll t log = ⟨(conf.Refresh log.length).result, none, log ++ [t]⟩ := by
  rw [StateChangeConf.poll]
  have hlt : ¬ conf.Timeout < t := by omega
  rw [dif_neg hlt]
  rcases hr : conf.Refresh log.length with ⟨res, state, err⟩
  rw [hr] at herr hstate
  simp only at herr hstate
  subst herr
  simp only [if_pos hstate]

/-- A round inside the window whose fetch fails ends the wait with that error. -/
theorem StateChangeConf.poll_error (conf : StateChangeConf) (t : Int) (log : List Int)
    (e : GoError) (hwin : t ≤ conf.Timeout) (herr : (conf.Refresh log.length).err = some e) :
    conf.poll t log = ⟨none, some e, log ++ [t]⟩ := by
  rw [StateChangeConf.poll]
  have hlt : ¬ conf.Timeout < t := by omega
  rw [dif_neg hlt]
  rcases hr : conf.Refresh log.length with ⟨res, state, err⟩
  rw [hr] at herr
  simp only at herr
  subst herr
  rfl

/-- A round that starts after the window has been exceeded makes no fetch. -/
theorem StateChangeConf.poll_late (conf : StateChangeConf) (t : Int) (log : List Int)
    (hlate : conf.Timeout < t) :
    conf.poll t log = ⟨none, some (GoError.timeout conf.Timeout), log⟩ := by
  rw [StateChangeConf.poll, dif_pos hlate]

/-- When no fetch ever fails or reports the target status, the wait ends with the
timeout error and no object. -/
theorem StateChangeConf.poll_timeout (conf : StateChangeConf)
    (hcont : ∀ k, (conf.Refresh k).err = none ∧ (conf.Refresh k).state ∉ conf.Target) :
    ∀ (m : Nat) (t : Int) (log : List Int), (conf.Timeout + 1 - t).toNat = m →
      (conf.poll t log).result = none ∧
        (conf.poll t log).err = some (GoError.timeout conf.Timeout) := by
  intro m
  induction m using Nat.strong_induction_on with
  | _ m ih =>
    intro t log hm
    by_cases hlate : conf.Timeout < t
    · rw [StateChangeConf.poll_late conf t log hlate]
      exact ⟨rfl, rfl⟩
    · have hp := conf.PollInterval_pos
      have hk := hcont log.length
      rw [StateChangeConf.poll_continue conf t log (by omega) hk.1 hk.2]
      exact ih (conf.Timeout + 1 - (t + conf.PollInterval)).toNat (by omega)
        (t + conf.PollInterval) (log ++ [t]) rfl

/-- Every fetch of a wait is started at an elapsed time that does not exceed the
timeout, provided the fetches logged before were. -/
theorem StateChangeConf.poll_refreshAt_le (conf : StateChangeConf) :
    ∀ (m : Nat) (t : Int) (log : List Int), (conf.Timeout + 1 - t).toNat = m →
      (∀ x ∈ log, x ≤ conf.Timeout) →
      ∀ x ∈ (conf.poll t log).refreshAt, x ≤ conf.Timeout := by
  intro m
  induction m using Nat.strong_induction_on with
  | _ m ih =>
    intro t log hm hlog
    by_cases hlate : conf.Timeout < t
    · rw [StateChangeConf.poll_late conf t log hlate]
      exact hlog
    · have hp := conf.PollInterval_pos
      have hlog2 : ∀ x ∈ log ++ [t], x ≤ conf.Timeout := by
        intro x hx
        rcases List.mem_append.1 hx with h | h
        · exact hlog x h
        · rw [List.mem_singleton.1 h]; omega
      rcases herr : (conf.Refresh log.length).err with _ | e
      · by_cases hstate : (conf.Refresh log.length).state ∈ conf.Target
        · rw [StateChangeConf.poll_target conf t log (by omega) herr hstate]
          exact hlog2
        · rw [StateChangeConf.poll_continue conf t log (by omega) herr hstate]
          exact ih (conf.Timeout + 1 - (t + conf.PollInterval)).toNat (by omega)
            (t + conf.PollInterval) (log ++ [t]) rfl hlog2
      · rw [StateChangeConf.poll_error conf t log e (by omega) herr]
        exact hlog2

/-! ## Lemmas on `waitForServiceReadiness` -/

/-- A pending status is not the target status. -/
theorem pending_not_target (st : String) (h : st ∈ ["QUEUED", "CONFIGURING", "UNSTABLE"]) :
    st ∉ ["READY"] := by
  intro hr
  rw [List.mem_singleton] at hr
  subst hr
  revert h
  decide

/-- The closure `Refresh` on a successful fetch. -/
theorem ServiceResource.refresh_ok (client : tsClient.Client) (ID : String) (k : Nat)
    (s : tsClient.Service) (h : client.GetService ID k = Except.ok s) :
    ServiceResource.refresh client ID k = ⟨some s, s.Status, none⟩ := by
  simp only [ServiceResource.refresh, h]

/-- The closure `Refresh` on a failed fetch. -/
theorem ServiceResource.refresh_error (client : tsClient.Client) (ID : String) (k : Nat)
    (e : GoError) (h : client.GetService ID k = Except.error e) :
    ServiceResource.refresh client ID k = ⟨none, "", some e⟩ := by
  simp only [ServiceResource.refresh, h]

/-- A fetch that succeeds with a pending status lets the poller continue. -/
theorem ServiceResource.refresh_pending (client : tsClient.Client) (ID : String) (k : Nat)
    (h : ∃ si, client.GetService ID k = Except.ok si ∧
      si.Status ∈ ["QUEUED", "CONFIGURING", "UNSTABLE"]) :
    (ServiceResource.refresh client ID k).err = none ∧
      (ServiceResource.refresh client ID k).state ∉ ["READY"] := by
  obtain ⟨si, hok, hst⟩ := h
  rw [ServiceResource.refresh_ok client ID k si hok]
  exact ⟨rfl, pending_not_target si.Status hst⟩

/-- After `n` fetches with pending statuses, all inside the window, the wait stands
at the round of fetch `n`, with `n` fetches logged. -/
theorem ServiceResource.wait_after_pending (client : tsClient.Client) (ID : String)
    (T : Int) (n : Nat)
    (hwin : 10 * time.Second + (n : Int) * (5 * time.Second) ≤ T)
    (hpend : ∀ i, i < n → ∃ si, client.GetService ID i = Except.ok si ∧
      si.Status ∈ ["QUEUED", "CONFIGURING", "UNSTABLE"]) :
    ∃ log : List Int, log.length = n ∧
      (ServiceResource.stateChangeConf client ID T).WaitForStateContext =
        (ServiceResource.stateChangeConf client ID T).poll
          (10 * time.Second + (n : Int) * (5 * time.Second)) log := by
  obtain ⟨log, hlen, heq⟩ :=
    StateChangeConf.poll_advance (ServiceResource.stateChangeConf client ID T) n
      (10 * time.Second) [] hwin (by
        intro i hi
        simp only [List.length_nil, Nat.zero_add]
        exact ServiceResource.refresh_pending client ID i (hpend i hi))
  exact ⟨log, by simpa using hlen, heq⟩

/-- Without an error diagnostic from `timeouts.Create`, the wait runs with the
timeout that `Create` hands back. -/
theorem ServiceResource.waitForServiceReadiness_eq (client : tsClient.Client) (ID : String)
    (tm : timeouts.Value)
    (hdiag : diag.Diagnostics.HasError (tm.Create (45 * time.Minute)).2 = false) :
    ServiceResource.waitForServiceReadiness client ID tm =
      ServiceResource.waitForState client ID (tm.Create (45 * time.Minute)).1 := by
  simp only [ServiceResource.waitForServiceReadiness, hdiag, Bool.false_eq_true, if_false]

/-! ## Lemmas on diagnostics -/

/-- After `AddError` the diagnostics contain the error added. -/
theorem diag.Diagnostics.mem_AddError (diags : diag.Diagnostics) (summary detail : String) :
    (⟨diag.Severity.Error, summary, detail⟩ : diag.Diagnostic) ∈
      diag.Diagnostics.AddError diags summary detail := by
  simp only [diag.Diagnostics.AddError, diag.Diagnostics.Append, List.foldl_cons, List.foldl_nil]
  split
  · assumption
  · simp

/-- Diagnostics that contain an error have `HasError`. -/
theorem diag.Diagnostics.HasError_of_mem (diags : diag.Diagnostics) (d : diag.Diagnostic)
    (hd : d ∈ diags) (hsev : d.Severity = diag.Severity.Error) :
    diag.Diagnostics.HasError diags = true := by
  simp only [diag.Diagnostics.HasError, List.any_eq_true, decide_eq_true_eq]
  exact ⟨d, hd, hsev⟩

/-- After `AddError` the diagnostics have an error. -/
theorem diag.Diagnostics.HasError_AddError (diags : diag.Diagnostics) (summary detail : String) :
    diag.Diagnostics.HasError (diag.Diagnostics.AddError diags summary detail) = true :=
  diag.Diagnostics.HasError_of_mem _ _ (diag.Diagnostics.mem_AddError diags summary detail) rfl

/-! ## Lemmas on `vpcResource.Update`, one per path -/

/-- Path 1: plan or state could not be decoded. -/
theorem vpcResource.Update_decode_error (client : tsClient.Client)
    (req : UpdateRequest vpcResourceModel)
    (hget : diag.Diagnostics.HasError
      (diag.Diagnostics.Append (diag.Diagnostics.Append [] req.Plan.diags) req.State.diags)
        = true) :
    vpcResource.Update client req =
      ⟨diag.Diagnostics.Append (diag.Diagnostics.Append [] req.Plan.diags) req.State.diags,
        none, []⟩ := by
  simp only [vpcResource.Update, hget, if_true]

/-- Path 2: the region code changed. -/
theorem vpcResource.Update_region_change (client : tsClient.Client)
    (req : UpdateRequest vpcResourceModel)
    (hget : diag.Diagnostics.HasError
      (diag.Diagnostics.Append (diag.Diagnostics.Append [] req.Plan.diags) req.State.diags)
        = false)
    (hr : req.Plan.value.RegionCode ≠ req.State.value.RegionCode) :
    vpcResource.Update client req =
      ⟨diag.Diagnostics.AddError
          (diag.Diagnostics.Append (diag.Diagnostics.Append [] req.Plan.diags) req.State.diags)
          ErrVPCUpdate "Do not support region code change", none, []⟩ := by
  simp only [vpcResource.Update, hget, Bool.false_eq_true, if_false]
  rw [if_pos hr]

/-- Path 3: the CIDR changed, the region code did not. -/
theorem vpcResource.Update_cidr_change (client : tsClient.Client)
    (req : UpdateRequest vpcResourceModel)
    (hget : diag.Diagnostics.HasError
      (diag.Diagnostics.Append (diag.Diagnostics.Append [] req.Plan.diags) req.State.diags)
        = false)
    (hr : req.Plan.value.RegionCode = req.State.value.RegionCode)
    (hc : req.Plan.value.CIDR ≠ req.State.value.CIDR) :
    vpcResource.Update client req =
      ⟨diag.Diagnostics.AddError
          (diag.Diagnostics.Append (diag.Diagnostics.Append [] req.Plan.diags) req.State.diags)
          ErrVPCUpdate "Do not support cidr change", none, []⟩ := by
  simp only [vpcResource.Update, hget, Bool.false_eq_true, if_false]
  rw [if_neg (not_not.2 hr), if_pos hc]

/-- Paths 4 and 5: region code and CIDR unchanged, the name changed. -/
theorem vpcResource.Update_rename (client : tsClient.Client)
    (req : UpdateRequest vpcResourceModel)
    (hget : diag.Diagnostics.HasError
      (diag.Diagnostics.Append (diag.Diagnostics.Append [] req.Plan.diags) req.State.diags)
        = false)
    (hr : req.Plan.value.RegionCode = req.State.value.RegionCode)
    (hc : req.Plan.value.CIDR = req.State.value.CIDR)
    (hn : req.Plan.value.Name ≠ req.State.value.Name) :
    vpcResource.Update client req =
      match client.RenameVPC req.State.value.ID.ValueInt64 req.Plan.value.Name.ValueString with
      | some err =>
        ⟨diag.Diagnostics.AddError
            (diag.Diagnostics.Append (diag.Diagnostics.Append [] req.Plan.diags) req.State.diags)
            ErrVPCUpdate err.Error, none,
          [ClientCall.RenameVPC req.State.value.ID.ValueInt64 req.Plan.value.Name.ValueString]⟩
      | none =>
        ⟨diag.Diagnostics.Append (diag.Diagnostics.Append [] req.Plan.diags) req.State.diags,
          some { req.State.value with Name := req.Plan.value.Name },
          [ClientCall.RenameVPC req.State.value.ID.ValueInt64 req.Plan.value.Name.ValueString]⟩ := by
  have he : (!req.Plan.value.Name.Equal req.State.value.Name) = true := by
    simp only [basetypes.StringValue.Equal, Bool.not_eq_true', decide_eq_false_iff_not]
    exact hn
  simp only [vpcResource.Update, hget, Bool.false_eq_true, if_false]
  rw [if_neg (not_not.2 hr), if_neg (not_not.2 hc), if_pos he]

/-- Path 6: region code, CIDR and name unchanged. -/
theorem vpcResource.Update_same_name (client : tsClient.Client)
    (req : UpdateRequest vpcResourceModel)
    (hget : diag.Diagnostics.HasError
      (diag.Diagnostics.Append (diag.Diagnostics.Append [] req.Plan.diags) req.State.diags)
        = false)
    (hr : req.Plan.value.RegionCode = req.State.value.RegionCode)
    (hc : req.Plan.value.CIDR = req.State.value.CIDR)
    (hn : req.Plan.value.Name = req.State.value.Name) :
    vpcResource.Update client req =
      ⟨diag.Diagnostics.Append (diag.Diagnostics.Append [] req.Plan.diags) req.State.diags,
        some { req.State.value with Name := req.Plan.value.Name }, []⟩ := by
  have he : ¬ (!req.Plan.value.Name.Equal req.State.value.Name) = true := by
    simp only [basetypes.StringValue.Equal, Bool.not_eq_true', decide_eq_false_iff_not, not_not]
    exact hn
  simp only [vpcResource.Update, hget, Bool.false_eq_true, if_false]
  rw [if_neg (not_not.2 hr), if_neg (not_not.2 hc), if_neg he]

/-! ## The claims -/

/-- C1: with the pending statuses QUEUED, CONFIGURING, UNSTABLE, the target READY and
a timeout that does not elapse before fetch `n+1`, a fetch sequence of `n` successful
results with pending statuses followed by a successful result `s` with status READY
makes `waitForServiceReadiness` fetch exactly `n+1` times and return `s` without
error. -/
theorem waitForServiceReadiness_ready_after_pending (client : tsClient.Client) (ID : String)
    (tm : timeouts.Value) (n : Nat) (s : tsClient.Service)
    (hdiag : diag.Diagnostics.HasError (tm.Create (45 * time.Minute)).2 = false)
    (hwin : 10 * time.Second + (n : Int) * (5 * time.Second) ≤ (tm.Create (45 * time.Minute)).1)
    (hpend : ∀ i, i < n → ∃ si, client.GetService ID i = Except.ok si ∧
      si.Status ∈ ["QUEUED", "CONFIGURING", "UNSTABLE"])
    (hready : client.GetService ID n = Except.ok s) (hstatus : s.Status = "READY") :
    (ServiceResource.waitForServiceReadiness client ID tm).calls = n + 1 ∧
      (ServiceResource.waitForServiceReadiness client ID tm).err = none ∧
      (ServiceResource.waitForServiceReadiness client ID tm).result = some s := by
  obtain ⟨log, hlen, heq⟩ := ServiceResource.wait_after_pending client ID _ n hwin hpend
  have hr : (ServiceResource.stateChangeConf client ID (tm.Create (45 * time.Minute)).1).Refresh
      log.length = ⟨some s, s.Status, none⟩ := by
    rw [hlen]
    exact ServiceResource.refresh_ok client ID n s hready
  have hfin := StateChangeConf.poll_target
    (ServiceResource.stateChangeConf client ID (tm.Create (45 * time.Minute)).1)
    (10 * time.Second + (n : Int) * (5 * time.Second)) log hwin (by rw [hr])
    (by rw [hr, hstatus]; exact List.mem_singleton.2 rfl)
  rw [hr] at hfin
  rw [ServiceResource.waitForServiceReadiness_eq client ID tm hdiag]
  simp only [ServiceResource.waitForState, heq, hfin, WaitResult.calls, List.length_append,
    List.length_singleton, hlen, and_self]

/-- Witness of C1: QUEUED, CONFIGURING, READY under the default timeout gives the
READY object after 3 fetches. -/
theorem waitForServiceReadiness_ready_after_pending_witness :
    (ServiceResource.waitForServiceReadiness (sampleClient ["QUEUED", "CONFIGURING"] "READY")
        "svc-1" timeouts.Value.absent).calls = 2 + 1 ∧
      (ServiceResource.waitForServiceReadiness (sampleClient ["QUEUED", "CONFIGURING"] "READY")
        "svc-1" timeouts.Value.absent).err = none ∧
      (ServiceResource.waitForServiceReadiness (sampleClient ["QUEUED", "CONFIGURING"] "READY")
        "svc-1" timeouts.Value.absent).result = some (sampleService "READY") :=
  waitForServiceReadiness_ready_after_pending (sampleClient ["QUEUED", "CONFIGURING"] "READY")
    "svc-1" timeouts.Value.absent 2 (sampleService "READY") (by decide) (by decide)
    (by
      intro i hi
      interval_cases i
      · exact ⟨sampleService "QUEUED", rfl, by decide⟩
      · exact ⟨sampleService "CONFIGURING", rfl, by decide⟩)
    rfl rfl

/-- C2: when fetch number `k` fails with the error `e`, the `k-1` fetches before it
having succeeded with pending statuses, `waitForServiceReadiness` returns no service
and exactly the error `e`, after exactly `k` fetch calls. That fetch `k` is made
means that its round, `10 s + (k-1) * 5 s`, is inside the timeout. -/
theorem waitForServiceReadiness_fetch_error (client : tsClient.Client) (ID : String)
    (tm : timeouts.Value) (k : Nat) (e : GoError) (hk : 0 < k)
    (hdiag : diag.Diagnostics.HasError (tm.Create (45 * time.Minute)).2 = false)
    (hwin : 10 * time.Second + ((k - 1 : Nat) : Int) * (5 * time.Second) ≤
      (tm.Create (45 * time.Minute)).1)
    (hpend : ∀ i, i < k - 1 → ∃ si, client.GetService ID i = Except.ok si ∧
      si.Status ∈ ["QUEUED", "CONFIGURING", "UNSTABLE"])
    (hfail : client.GetService ID (k - 1) = Except.error e) :
    (ServiceResource.waitForServiceReadiness client ID tm).result = none ∧
      (ServiceResource.waitForServiceReadiness client ID tm).err = some e ∧
      (ServiceResource.waitForServiceReadiness client ID tm).calls = k := by
  obtain ⟨log, hlen, heq⟩ := ServiceResource.wait_after_pending client ID _ (k - 1) hwin hpend
  have hr : ((ServiceResource.stateChangeConf client ID (tm.Create (45 * time.Minute)).1).Refresh
      log.length).err = some e := by
    rw [hlen]
    show (ServiceResource.refresh client ID (k - 1)).err = some e
    rw [ServiceResource.refresh_error client ID (k - 1) e hfail]
  have hfin := StateChangeConf.poll_error
    (ServiceResource.stateChangeConf client ID (tm.Create (45 * time.Minute)).1)
    (10 * time.Second + ((k - 1 : Nat) : Int) * (5 * time.Second)) log e hwin hr
  rw [ServiceResource.waitForServiceReadiness_eq client ID tm hdiag]
  simp only [ServiceResource.waitForState, heq, hfin, WaitResult.calls, List.length_append,
    List.length_singleton, hlen, true_and]
  omega

/-- Witness of C2: QUEUED, then the error 503 at the second fetch. -/
theorem waitForServiceReadiness_fetch_error_witness :
    failingClient.GetService "svc-1" 0 = Except.ok (sampleService "QUEUED") ∧
      failingClient.GetService "svc-1" 1 = Except.error (GoError.api "503") ∧
      (ServiceResource.waitForServiceReadiness failingClient "svc-1"
        timeouts.Value.absent).result = none ∧
      (ServiceResource.waitForServiceReadiness failingClient "svc-1"
        timeouts.Value.absent).err = some (GoError.api "503") ∧
      (ServiceResource.waitForServiceReadiness failingClient "svc-1"
        timeouts.Value.absent).calls = 2 :=
  ⟨rfl, rfl,
    waitForServiceReadiness_fetch_error failingClient "svc-1" timeouts.Value.absent 2
      (GoError.api "503") (by decide) (by decide) (by decide)
      (by
        intro i hi
        interval_cases i
        exact ⟨sampleService "QUEUED", rfl, by decide⟩)
      rfl⟩

/-- C4: when every fetch succeeds with a pending status, `waitForServiceReadiness`
returns no service and the timeout error for its timeout `T`, and every fetch call
it made was started at an elapsed time of at most `T`; with `T` below the initial
delay of 10 seconds no fetch is made, so with `T` = 1 second at most one is. -/
theorem waitForServiceReadiness_timeout (client : tsClient.Client) (ID : String)
    (tm : timeouts.Value)
    (hdiag : diag.Diagnostics.HasError (tm.Create (45 * time.Minute)).2 = false)
    (hpend : ∀ i, ∃ si, client.GetService ID i = Except.ok si ∧
      si.Status ∈ ["QUEUED", "CONFIGURING", "UNSTABLE"]) :
    (ServiceResource.waitForServiceReadiness client ID tm).result = none ∧
      (ServiceResource.waitForServiceReadiness client ID tm).err =
        some (GoError.timeout (tm.Create (45 * time.Minute)).1) ∧
      (∀ x ∈ (ServiceResource.waitForServiceReadiness client ID tm).refreshAt,
        x ≤ (tm.Create (45 * time.Minute)).1) ∧
      ((tm.Create (45 * time.Minute)).1 < 10 * time.Second →
        (ServiceResource.waitForServiceReadiness client ID tm).calls = 0) ∧
      ((tm.Create (45 * time.Minute)).1 = 1 * time.Second →
        (ServiceResource.waitForServiceReadiness client ID tm).calls ≤ 1) := by
  have hto := StateChangeConf.poll_timeout
    (ServiceResource.stateChangeConf client ID (tm.Create (45 * time.Minute)).1)
    (fun k => ServiceResource.refresh_pending client ID k (hpend k)) _ (10 * time.Second) [] rfl
  have hle := StateChangeConf.poll_refreshAt_le
    (ServiceResource.stateChangeConf client ID (tm.Create (45 * time.Minute)).1)
    _ (10 * time.Second) [] rfl (by simp)
  have hwait : ServiceResource.waitForServiceReadiness client ID tm =
      ⟨none, some (GoError.timeout (tm.Create (45 * time.Minute)).1),
        ((ServiceResource.stateChangeConf client ID (tm.Create (45 * time.Minute)).1).poll
          (10 * time.Second) []).refreshAt⟩ := by
    rw [ServiceResource.waitForServiceReadiness_eq client ID tm hdiag]
    simp only [ServiceResource.waitForState, StateChangeConf.WaitForStateContext]
    have h2 := hto.2
    simp only [ServiceResource.stateChangeConf] at h2 ⊢
    rw [h2]
  have hzero : (tm.Create (45 * time.Minute)).1 < 10 * time.Second →
      (ServiceResource.waitForServiceReadiness client ID tm).calls = 0 := by
    intro hshort
    rw [hwait]
    have hlate := StateChangeConf.poll_late
      (ServiceResource.stateChangeConf client ID (tm.Create (45 * time.Minute)).1)
      (10 * time.Second) [] hshort
    simp only [WaitResult.calls, hlate, List.length_nil]
  refine ⟨by rw [hwait], by rw [hwait], ?_, hzero, ?_⟩
  · rw [hwait]
    exact hle
  · intro hone
    have := hzero (by rw [hone]; decide)
    omega

/-- Witness of C4: a timeout of 1 second and a fetch that always answers
CONFIGURING. -/
theorem waitForServiceReadiness_timeout_witness :
    (ServiceResource.waitForServiceReadiness (sampleClient [] "CONFIGURING") "svc-1"
        (timeouts.Value.valid (1 * time.Second))).result = none ∧
      (ServiceResource.waitForServiceReadiness (sampleClient [] "CONFIGURING") "svc-1"
        (timeouts.Value.valid (1 * time.Second))).err =
          some (GoError.timeout (1 * time.Second)) ∧
      (ServiceResource.waitForServiceReadiness (sampleClient [] "CONFIGURING") "svc-1"
        (timeouts.Value.valid (1 * time.Second))).calls ≤ 1 :=
  have h := waitForServiceReadiness_timeout (sampleClient [] "CONFIGURING") "svc-1"
    (timeouts.Value.valid (1 * time.Second)) (by decide)
    (fun _ => ⟨sampleService "CONFIGURING", rfl, by decide⟩)
  ⟨h.1, h.2.1, h.2.2.2.2 rfl⟩

/-- C5, counterexample: with a create timeout that cannot be parsed, and a service
that is READY at the first fetch, `waitForServiceReadiness` returns an error without
a single fetch, whereas the wait under the 45-minute default returns the service. -/
theorem waitForServiceReadiness_invalid_timeout_fails :
    (ServiceResource.waitForServiceReadiness (sampleClient [] "READY") "svc-1"
        (timeouts.Value.invalid "soon")).calls = 0 ∧
      (ServiceResource.waitForServiceReadiness (sampleClient [] "READY") "svc-1"
        (timeouts.Value.invalid "soon")).result = none ∧
      (ServiceResource.waitForServiceReadiness (sampleClient [] "READY") "svc-1"
        (timeouts.Value.invalid "soon")).err ≠ none ∧
      (ServiceResource.waitForState (sampleClient [] "READY") "svc-1"
        (45 * time.Minute)).result = some (sampleService "READY") := by
  refine ⟨by decide, by decide, by decide, ?_⟩
  have hfin := StateChangeConf.poll_target
    (ServiceResource.stateChangeConf (sampleClient [] "READY") "svc-1" (45 * time.Minute))
    (10 * time.Second) [] (by decide) rfl (by decide)
  simp only [ServiceResource.waitForState, StateChangeConf.WaitForStateContext]
  simp only [ServiceResource.stateChangeConf] at hfin ⊢
  rw [hfin]
  rfl

/-- C5, amended: the timeout of the wait is the user's create timeout when that is a
valid duration string and the 45-minute default when the setting is absent; when the
setting cannot be parsed, `waitForServiceReadiness` returns no service and the error
"unable to get timeout from config ..." without making a fetch. -/
theorem waitForServiceReadiness_timeout_setting (client : tsClient.Client) (ID : String) :
    (∀ d : Int, ServiceResource.waitForServiceReadiness client ID (timeouts.Value.valid d) =
        ServiceResource.waitForState client ID d) ∧
      ServiceResource.waitForServiceReadiness client ID timeouts.Value.absent =
        ServiceResource.waitForState client ID (45 * time.Minute) ∧
      (∀ s : String,
        (ServiceResource.waitForServiceReadiness client ID (timeouts.Value.invalid s)).result
            = none ∧
          (ServiceResource.waitForServiceReadiness client ID (timeouts.Value.invalid s)).calls
            = 0 ∧
          ∃ detail : String,
            (ServiceResource.waitForServiceReadiness client ID (timeouts.Value.invalid s)).err
              = some (GoError.errorf ("unable to get timeout from config " ++ detail))) := by
  refine ⟨fun d => rfl, rfl, fun s => ⟨rfl, rfl, ⟨_, rfl⟩⟩⟩

/-- C6, the code at the failing inputs: `ServiceResource.Update` compares the
planned name with the ID of the prior state. With the name unchanged ("db") and the
ID "svc-1" it reports "Updating service name is currently unsupported"; with the
name changed from "db" to "svc-1" it reports nothing. Neither run makes a call. -/
theorem ServiceResource_Update_compares_name_with_ID :
    (⟨diag.Severity.Error, "Unsupported operation", ErrUpdateService⟩ : diag.Diagnostic) ∈
        (ServiceResource.Update
          ⟨⟨sampleServiceModel "svc-1" "db", []⟩, ⟨sampleServiceModel "svc-1" "db", []⟩⟩).Diagnostics ∧
      (ServiceResource.Update
          ⟨⟨sampleServiceModel "svc-1" "svc-1", []⟩,
            ⟨sampleServiceModel "svc-1" "db", []⟩⟩).Diagnostics = [] ∧
      (ServiceResource.Update
          ⟨⟨sampleServiceModel "svc-1" "db", []⟩, ⟨sampleServiceModel "svc-1" "db", []⟩⟩).calls = [] ∧
      (ServiceResource.Update
          ⟨⟨sampleServiceModel "svc-1" "svc-1", []⟩,
            ⟨sampleServiceModel "svc-1" "db", []⟩⟩).calls = [] := by
  decide

/-- C8, the code at the failing input: for a remote VPC with the peering connection
ID "pc-1", `vpcToResource` adds the "Parse Error" to its own copy of the
diagnostics, and the diagnostics that `Read` and `Create` hand back are empty; both
set the state, the peering connection getting the ID 0. -/
theorem vpcToResource_parse_error_lost :
    (⟨diag.Severity.Error, "Parse Error", "could not parse peering connection ID"⟩ :
        diag.Diagnostic) ∈
        (vpcToResource [] peeredVPC (sampleVPCModel "net" "us-east-1" "10.0.0.0/16")).2 ∧
      (vpcResource.Read peeredClient
        ⟨⟨sampleVPCModel "net" "us-east-1" "10.0.0.0/16", []⟩⟩).Diagnostics = [] ∧
      (vpcResource.Create peeredClient
        ⟨⟨sampleVPCModel "net" "us-east-1" "10.0.0.0/16", []⟩⟩).Diagnostics = [] ∧
      (vpcResource.Read peeredClient
        ⟨⟨sampleVPCModel "net" "us-east-1" "10.0.0.0/16", []⟩⟩).State.isSome = true ∧
      (vpcResource.Create peeredClient
        ⟨⟨sampleVPCModel "net" "us-east-1" "10.0.0.0/16", []⟩⟩).State.isSome = true := by
  decide

/-- C7: when the planned region_code differs from the prior one, or the planned
cidr from the prior one, `vpcResource.Update` makes no client call (no `RenameVPC`,
whatever the names), sets no state and leaves an error in the diagnostics; once
plan and state were decoded without error, that error is an "Error updating VPC". -/
theorem vpcResource_Update_rejects_region_or_cidr_change (client : tsClient.Client)
    (req : UpdateRequest vpcResourceModel)
    (hdiff : req.Plan.value.RegionCode ≠ req.State.value.RegionCode ∨
      req.Plan.value.CIDR ≠ req.State.value.CIDR) :
    (vpcResource.Update client req).calls = [] ∧
      (vpcResource.Update client req).State = none ∧
      diag.Diagnostics.HasError (vpcResource.Update client req).Diagnostics = true ∧
      (diag.Diagnostics.HasError
          (diag.Diagnostics.Append (diag.Diagnostics.Append [] req.Plan.diags) req.State.diags)
          = false →
        ∃ d ∈ (vpcResource.Update client req).Diagnostics,
          d.Severity = diag.Severity.Error ∧ d.Summary = ErrVPCUpdate) := by
  by_cases hget : diag.Diagnostics.HasError
      (diag.Diagnostics.Append (diag.Diagnostics.Append [] req.Plan.diags) req.State.diags) = true
  · rw [vpcResource.Update_decode_error client req hget]
    exact ⟨rfl, rfl, hget, fun h => absurd hget (by rw [h]; decide)⟩
  · have hget2 := Bool.eq_false_iff.2 hget
    by_cases hr : req.Plan.value.RegionCode = req.State.value.RegionCode
    · have hc : req.Plan.value.CIDR ≠ req.State.value.CIDR := by
        rcases hdiff with h | h
        · exact absurd hr h
        · exact h
      rw [vpcResource.Update_cidr_change client req hget2 hr hc]
      exact ⟨rfl, rfl, diag.Diagnostics.HasError_AddError _ _ _,
        fun _ => ⟨_, diag.Diagnostics.mem_AddError _ _ _, rfl, rfl⟩⟩
    · rw [vpcResource.Update_region_change client req hget2 hr]
      exact ⟨rfl, rfl, diag.Diagnostics.HasError_AddError _ _ _,
        fun _ => ⟨_, diag.Diagnostics.mem_AddError _ _ _, rfl, rfl⟩⟩

/-- Witness of C7: region changed from us-east-1 to eu-west-1, name changed too. -/
theorem vpcResource_Update_rejects_region_or_cidr_change_witness :
    (vpcResource.Update (sampleClient [] "READY")
        ⟨⟨sampleVPCModel "new" "eu-west-1" "10.0.0.0/16", []⟩,
          ⟨sampleVPCModel "net" "us-east-1" "10.0.0.0/16", []⟩⟩).calls = [] ∧
      (vpcResource.Update (sampleClient [] "READY")
        ⟨⟨sampleVPCModel "new" "eu-west-1" "10.0.0.0/16", []⟩,
          ⟨sampleVPCModel "net" "us-east-1" "10.0.0.0/16", []⟩⟩).State = none ∧
      diag.Diagnostics.HasError (vpcResource.Update (sampleClient [] "READY")
        ⟨⟨sampleVPCModel "new" "eu-west-1" "10.0.0.0/16", []⟩,
          ⟨sampleVPCModel "net" "us-east-1" "10.0.0.0/16", []⟩⟩).Diagnostics = true :=
  have h := vpcResource_Update_rejects_region_or_cidr_change (sampleClient [] "READY")
    ⟨⟨sampleVPCModel "new" "eu-west-1" "10.0.0.0/16", []⟩,
      ⟨sampleVPCModel "net" "us-east-1" "10.0.0.0/16", []⟩⟩ (Or.inl (by decide))
  ⟨h.1, h.2.1, h.2.2.1⟩

/-- C9: for a remote service `s` with at least one resource entry and any prior model
`st`, `serviceToResource s st` keeps `st.Password` and `st.Timeouts`, and each of id,
name, enable_storage_autoscaling, milli_cpu, storage_gb, memory_gb, hostname,
username and port is the same for every other prior model `st2`. -/
theorem serviceToResource_frame (s : tsClient.Service) (st : serviceResourceModel)
    (hres : s.Resources ≠ []) :
    ∃ m, serviceToResource s st = some m ∧ m.Password = st.Password ∧
      m.Timeouts = st.Timeouts ∧
      ∀ st2 : serviceResourceModel, ∃ m2, serviceToResource s st2 = some m2 ∧
        m2.ID = m.ID ∧ m2.Name = m.Name ∧
        m2.EnableStorageAutoscaling = m.EnableStorageAutoscaling ∧
        m2.MilliCPU = m.MilliCPU ∧ m2.StorageGB = m.StorageGB ∧ m2.MemoryGB = m.MemoryGB ∧
        m2.Hostname = m.Hostname ∧ m2.Username = m.Username ∧ m2.Port = m.Port := by
  rcases hs : s.Resources with _ | ⟨r0, rest⟩
  · exact absurd hs hres
  · have hval : ∀ x : serviceResourceModel, serviceToResource s x = some {
        ID := basetypes.StringValue.known s.ID
        Password := x.Password
        Name := basetypes.StringValue.known s.Name
        EnableStorageAutoscaling := basetypes.BoolValue.known s.AutoscaleSettings.Enabled
        MilliCPU := basetypes.Int64Value.known r0.Spec.MilliCPU
        StorageGB := basetypes.Int64Value.known r0.Spec.StorageGB
        MemoryGB := basetypes.Int64Value.known r0.Spec.MemoryGB
        Hostname := basetypes.StringValue.known s.ServiceSpec.Hostname
        Username := basetypes.StringValue.known s.ServiceSpec.Username
        Port := basetypes.Int64Value.known s.ServiceSpec.Port
        Timeouts := x.Timeouts } := by
      intro x
      simp only [serviceToResource, hs]
    refine ⟨_, hval st, rfl, rfl, fun st2 => ?_⟩
    exact ⟨_, hval st2, rfl, rfl, rfl, rfl, rfl, rfl, rfl, rfl, rfl⟩

/-- Witness of C9: the sample service against a prior model with password "secret". -/
theorem serviceToResource_frame_witness :
    (sampleService "READY").Resources ≠ [] ∧
      ∃ m, serviceToResource (sampleService "READY") (sampleServiceModel "svc-1" "db") = some m ∧
        m.Password = basetypes.StringValue.known "secret" ∧
        m.Timeouts = timeouts.Value.absent :=
  ⟨by decide,
    match serviceToResource_frame (sampleService "READY") (sampleServiceModel "svc-1" "db")
      (by decide) with
    | ⟨m, hm, hp, ht, _⟩ => ⟨m, hm, hp, ht⟩⟩

/-- C10: for a plan and a prior state, decoded without error, with equal region_code
and equal cidr, `vpcResource.Update` calls `RenameVPC` (with the ID of the prior
state and the planned name) when the planned name differs from the prior name and
makes no call when it does not, so at most one call; when that call fails, the error
is reported as "Error updating VPC" and no state is set; otherwise the state set is
the prior state with the name replaced by the planned name, and nothing is added to
the diagnostics. -/
theorem vpcResource_Update_rename_only (client : tsClient.Client)
    (req : UpdateRequest vpcResourceModel)
    (hget : diag.Diagnostics.HasError
      (diag.Diagnostics.Append (diag.Diagnostics.Append [] req.Plan.diags) req.State.diags)
        = false)
    (hr : req.Plan.value.RegionCode = req.State.value.RegionCode)
    (hc : req.Plan.value.CIDR = req.State.value.CIDR) :
    (req.Plan.value.Name ≠ req.State.value.Name →
        (vpcResource.Update client req).calls =
          [ClientCall.RenameVPC req.State.value.ID.ValueInt64 req.Plan.value.Name.ValueString]) ∧
      (req.Plan.value.Name = req.State.value.Name → (vpcResource.Update client req).calls = []) ∧
      (vpcResource.Update client req).calls.length ≤ 1 ∧
      (∀ err : GoError, req.Plan.value.Name ≠ req.State.value.Name →
        client.RenameVPC req.State.value.ID.ValueInt64 req.Plan.value.Name.ValueString = some err →
        (⟨diag.Severity.Error, ErrVPCUpdate, err.Error⟩ : diag.Diagnostic) ∈
            (vpcResource.Update client req).Diagnostics ∧
          diag.Diagnostics.HasError (vpcResource.Update client req).Diagnostics = true ∧
          (vpcResource.Update client req).State = none) ∧
      (req.Plan.value.Name = req.State.value.Name ∨
          client.RenameVPC req.State.value.ID.ValueInt64 req.Plan.value.Name.ValueString = none →
        (vpcResource.Update client req).State =
            some { req.State.value with Name := req.Plan.value.Name } ∧
          (vpcResource.Update client req).Diagnostics =
            diag.Diagnostics.Append (diag.Diagnostics.Append [] req.Plan.diags)
              req.State.diags) := by
  by_cases hn : req.Plan.value.Name = req.State.value.Name
  · rw [vpcResource.Update_same_name client req hget hr hc hn]
    exact ⟨fun h => absurd hn h, fun _ => rfl, Nat.zero_le _, fun _ h _ => absurd hn h,
      fun _ => ⟨rfl, rfl⟩⟩
  · rw [vpcResource.Update_rename client req hget hr hc hn]
    rcases hcall : client.RenameVPC req.State.value.ID.ValueInt64
        req.Plan.value.Name.ValueString with _ | err
    · refine ⟨fun _ => rfl, fun h => absurd h hn, Nat.le_refl _, ?_, fun _ => ⟨rfl, rfl⟩⟩
      intro err _ h
      exact absurd h (by simp)
    · refine ⟨fun _ => rfl, fun h => absurd h hn, Nat.le_refl _, ?_, ?_⟩
      · intro err2 _ h
        have he : err = err2 := Option.some.inj h
        subst he
        exact ⟨diag.Diagnostics.mem_AddError _ _ _, diag.Diagnostics.HasError_AddError _ _ _, rfl⟩
      · intro h
        rcases h with h | h
        · exact absurd h hn
        · exact absurd h (by simp)

/-- Witness of C10: the name changes from "net" to "new" and the rename succeeds. -/
theorem vpcResource_Update_rename_only_witness :
    (vpcResource.Update (sampleClient [] "READY")
        ⟨⟨sampleVPCModel "new" "us-east-1" "10.0.0.0/16", []⟩,
          ⟨sampleVPCModel "net" "us-east-1" "10.0.0.0/16", []⟩⟩).calls =
        [ClientCall.RenameVPC 7 "new"] ∧
      (vpcResource.Update (sampleClient [] "READY")
        ⟨⟨sampleVPCModel "new" "us-east-1" "10.0.0.0/16", []⟩,
          ⟨sampleVPCModel "net" "us-east-1" "10.0.0.0/16", []⟩⟩).State =
        some (sampleVPCModel "new" "us-east-1" "10.0.0.0/16") :=
  have h := vpcResource_Update_rename_only (sampleClient [] "READY")
    ⟨⟨sampleVPCModel "new" "us-east-1" "10.0.0.0/16", []⟩,
      ⟨sampleVPCModel "net" "us-east-1" "10.0.0.0/16", []⟩⟩ (by decide) rfl rfl
  ⟨h.1 (by decide), (h.2.2.2.2 (Or.inr rfl)).1⟩

/-- C11: `useDefaultIfEmpty v d` is the decimal string of the default `d` when `v` is
unknown, and the decimal string of the integer value of `v` otherwise, in which case
the default plays no part; a null `v` gives "0". So the create request of
`ServiceResource.Create` carries "500", "10" and "2" for unknown planned sizes, and
the decimal string of the planned value for any other. -/
theorem useDefaultIfEmpty_default_only_for_unknown (v : basetypes.Int64Value) (d : Int)
    (plan : serviceResourceModel) :
    (v = basetypes.Int64Value.unknown → useDefaultIfEmpty v d = strconv.FormatInt d) ∧
      (v ≠ basetypes.Int64Value.unknown →
        useDefaultIfEmpty v d = strconv.FormatInt v.ValueInt64 ∧
          ∀ d2 : Int, useDefaultIfEmpty v d2 = useDefaultIfEmpty v d) ∧
      useDefaultIfEmpty basetypes.Int64Value.null d = "0" ∧
      (plan.MilliCPU = basetypes.Int64Value.unknown →
        (ServiceResource.createServiceRequest plan).MilliCPU = "500") ∧
      (plan.StorageGB = basetypes.Int64Value.unknown →
        (ServiceResource.createServiceRequest plan).StorageGB = "10") ∧
      (plan.MemoryGB = basetypes.Int64Value.unknown →
        (ServiceResource.createServiceRequest plan).MemoryGB = "2") ∧
      (plan.MilliCPU ≠ basetypes.Int64Value.unknown →
        (ServiceResource.createServiceRequest plan).MilliCPU =
          strconv.FormatInt plan.MilliCPU.ValueInt64) ∧
      (plan.StorageGB ≠ basetypes.Int64Value.unknown →
        (ServiceResource.createServiceRequest plan).StorageGB =
          strconv.FormatInt plan.StorageGB.ValueInt64) ∧
      (plan.MemoryGB ≠ basetypes.Int64Value.unknown →
        (ServiceResource.createServiceRequest plan).MemoryGB =
          strconv.FormatInt plan.MemoryGB.ValueInt64) := by
  have hunk : ∀ x : Int, useDefaultIfEmpty basetypes.Int64Value.unknown x = strconv.FormatInt x :=
    fun _ => rfl
  have hknown : ∀ (w : basetypes.Int64Value) (x : Int), w ≠ basetypes.Int64Value.unknown →
      useDefaultIfEmpty w x = strconv.FormatInt w.ValueInt64 := by
    intro w x hw
    cases w with
    | null => rfl
    | unknown => exact absurd rfl hw
    | known value => rfl
  refine ⟨fun h => by rw [h, hunk], fun h => ⟨hknown v d h, fun d2 => ?_⟩,
    (by show strconv.FormatInt 0 = "0"; decide),
    fun h => ?_, fun h => ?_, fun h => ?_, fun h => hknown _ _ h, fun h => hknown _ _ h,
    fun h => hknown _ _ h⟩
  · rw [hknown v d2 h, hknown v d h]
  · show useDefaultIfEmpty plan.MilliCPU DefaultMilliCPU = "500"
    rw [h, hunk]
    decide
  · show useDefaultIfEmpty plan.StorageGB DefaultStorageGB = "10"
    rw [h, hunk]
    decide
  · show useDefaultIfEmpty plan.MemoryGB DefaultMemoryGB = "2"
    rw [h, hunk]
    decide

/-- Witness of C11: against the default 500, a null value gives "0", a known 4000
gives the string of 4000 and an unknown value the string of 500. -/
theorem useDefaultIfEmpty_default_only_for_unknown_witness :
    useDefaultIfEmpty basetypes.Int64Value.null 500 = "0" ∧
      useDefaultIfEmpty (basetypes.Int64Value.known 4000) 500 = strconv.FormatInt 4000 ∧
      useDefaultIfEmpty basetypes.Int64Value.unknown 500 = strconv.FormatInt 500 :=
  ⟨(useDefaultIfEmpty_default_only_for_unknown basetypes.Int64Value.null 500
      (sampleServiceModel "svc-1" "db")).2.2.1,
    ((useDefaultIfEmpty_default_only_for_unknown (basetypes.Int64Value.known 4000) 500
      (sampleServiceModel "svc-1" "db")).2.1 (by decide)).1,
    (useDefaultIfEmpty_default_only_for_unknown basetypes.Int64Value.unknown 500
      (sampleServiceModel "svc-1" "db")).1 rfl⟩

/-- C12, the table as it is: `storageSizes` is not strictly increasing. Its entry 34
is 800, between 7000 and 9000, so 800 is listed twice and 8000 is not an accepted
`storage_gb` value. -/
theorem storageSizes_not_strictly_increasing :
    ¬ List.Sorted (fun a b : Int => a < b) storageSizes ∧
      storageSizes.get? 33 = some 7000 ∧ storageSizes.get? 34 = some 800 ∧
      storageSizes.get? 35 = some 9000 ∧ storageSizes.count 800 = 2 ∧
      int64validator.OneOf storageSizes 8000 = false := by
  decide

/-- C13: `milliCPUSizes` and `memorySizes` have the same length and entry `i` of the
first is 250 times entry `i` of the second; so 250 times every allowed `memory_gb`
value is an allowed `milli_cpu` value, and every allowed `milli_cpu` value is 250
times an allowed `memory_gb` value. -/
theorem milliCPUSizes_eq_250_memorySizes :
    milliCPUSizes.length = memorySizes.length ∧
      (∀ i : Fin memorySizes.length, milliCPUSizes.get? i = some (250 * memorySizes.get i)) ∧
      (∀ m : Int, int64validator.OneOf memorySizes m = true →
        int64validator.OneOf milliCPUSizes (250 * m) = true) ∧
      (∀ c : Int, int64validator.OneOf milliCPUSizes c = true →
        ∃ m : Int, int64validator.OneOf memorySizes m = true ∧ c = 250 * m) := by
  refine ⟨by decide, by decide, ?_, ?_⟩
  · intro m hm
    have hmem : m ∈ memorySizes := by simpa [int64validator.OneOf] using hm
    have hall : ∀ x ∈ memorySizes, int64validator.OneOf milliCPUSizes (250 * x) = true := by
      decide
    exact hall m hmem
  · intro c hc
    have hmem : c ∈ milliCPUSizes := by simpa [int64validator.OneOf] using hc
    have hall : ∀ x ∈ milliCPUSizes,
        ∃ m ∈ memorySizes, int64validator.OneOf memorySizes m = true ∧ x = 250 * m := by
      decide
    obtain ⟨m, _, hm, hx⟩ := hall c hmem
    exact ⟨m, hm, hx⟩

/-- C14: `serviceToResource s st` succeeds exactly when `s.Resources` has at least
one entry, and then milli_cpu, storage_gb and memory_gb of the result are those of
the spec of the first entry, whatever entries follow. -/
theorem serviceToResource_succeeds_iff_resources (s : tsClient.Service)
    (st : serviceResourceModel) :
    ((serviceToResource s st).isSome = true ↔ s.Resources ≠ []) ∧
      ∀ (r0 : tsClient.Resource) (rest : List tsClient.Resource), s.Resources = r0 :: rest →
        ∃ m, serviceToResource s st = some m ∧
          m.MilliCPU = basetypes.Int64Value.known r0.Spec.MilliCPU ∧
          m.StorageGB = basetypes.Int64Value.known r0.Spec.StorageGB ∧
          m.MemoryGB = basetypes.Int64Value.known r0.Spec.MemoryGB := by
  constructor
  · rcases hs : s.Resources with _ | ⟨r0, rest⟩
    · simp [serviceToResource, hs]
    · simp [serviceToResource, hs]
  · intro r0 rest hs
    exact ⟨{
        ID := basetypes.StringValue.known s.ID
        Password := st.Password
        Name := basetypes.StringValue.known s.Name
        EnableStorageAutoscaling := basetypes.BoolValue.known s.AutoscaleSettings.Enabled
        MilliCPU := basetypes.Int64Value.known r0.Spec.MilliCPU
        StorageGB := basetypes.Int64Value.known r0.Spec.StorageGB
        MemoryGB := basetypes.Int64Value.known r0.Spec.MemoryGB
        Hostname := basetypes.StringValue.known s.ServiceSpec.Hostname
        Username := basetypes.StringValue.known s.ServiceSpec.Username
        Port := basetypes.Int64Value.known s.ServiceSpec.Port
        Timeouts := st.Timeouts }, by simp only [serviceToResource, hs], rfl, rfl, rfl⟩

/-- Witness of C14: a service with two resource entries maps to the sizes of the
first; a service without entries does not map. -/
theorem serviceToResource_succeeds_iff_resources_witness :
    (∃ m, serviceToResource twoResourceService (sampleServiceModel "svc-1" "db") = some m ∧
        m.MilliCPU = basetypes.Int64Value.known 1000 ∧
        m.StorageGB = basetypes.Int64Value.known 25 ∧
        m.MemoryGB = basetypes.Int64Value.known 4) ∧
      (serviceToResource { sampleService "READY" with Resources := [] }
        (sampleServiceModel "svc-1" "db")).isSome ≠ true :=
  ⟨(serviceToResource_succeeds_iff_resources twoResourceService
      (sampleServiceModel "svc-1" "db")).2 ⟨⟨1000, 25, 4⟩⟩ [⟨⟨500, 10, 2⟩⟩] rfl,
    fun h => ((serviceToResource_succeeds_iff_resources
      { sampleService "READY" with Resources := [] }
      (sampleServiceModel "svc-1" "db")).1.1 h) rfl⟩

end TimescaleProvider
